import Mathlib

/-
Verification development for the Busfeed route-calculation engine
(src/frontend/src/services/api.js).

Modelling conventions, stated once here:

* JavaScript numbers are modelled as integers (`ℤ`): all distances are in
  metres and all durations in minutes, exactly as the source treats them
  after its `Math.ceil` / `Math.round` calls.  `Math.ceil(a / n)` on a
  nonnegative divisor becomes `jsCeilDiv a n` and `Math.round(a / n)`
  becomes `jsRoundDiv a n`, both defined below through floor division
  (`Int.fdiv`), which agrees with the JS semantics of rounding toward
  positive infinity on halves.
* `calculateDistance` in the source is the haversine formula over
  floating-point trigonometry.  Its exact value is not representable in an
  exact embedding, so the metric itself is abstracted as an explicit
  parameter `calcDist : DistFn`; every development-level theorem quantifies
  over it.  The part of `calculateDistance` that *is* structural — the
  TypeError raised when a location has no `coordinates` array — is kept as
  the error case of an `Except`.
* Exceptions are modelled with `Except Unit`; the `try/catch` of
  `calculateRoutes` becomes a `match` on that `Except`.
* JS `null`/`undefined` become `Option`.  In particular `calculateRoutes`
  builds the array `[exampleRoute]` where `exampleRoute` may be `null`, so
  its result type is `List (Option Route)`.
* `Array.prototype.sort` is a stable comparison sort; it is modelled by the
  stable insertion sort `insertionSortBy` below (a stable sort's output is
  uniquely determined by the comparator and input order).  The JS
  comparator `(a, b) => a.tempo_total - b.tempo_total` would throw when an
  element is `null`; JS never invokes the comparator on arrays of length
  ≤ 1, and `sortRoutesByTempo` reproduces exactly that behaviour.
* The fare constants 4.50 and 9.00 (the only non-integer literals in the
  engine) are stored in centavos: 450 and 900.
-/

/-- JS `Math.ceil(a / n)`: ceiling of the exact quotient, via `-⌊-a/n⌋`. -/
def jsCeilDiv (a n : ℤ) : ℤ := -((-a).fdiv n)

/-- JS `Math.round(a / n)`: `⌊a/n + 1/2⌋ = ⌊(2a+n)/(2n)⌋`, rounding halves up. -/
def jsRoundDiv (a n : ℤ) : ℤ := (2 * a + n).fdiv (2 * n)

/-- Stable insertion of `x` into `l`: `x` goes in front of the first element
`y` with `le x y`, hence after every earlier element it ties with. -/
def insertLe (le : α → α → Bool) (x : α) : List α → List α
  | [] => [x]
  | y :: ys => if le x y then x :: y :: ys else y :: insertLe le x ys

/-- Stable insertion sort, the model of JS `Array.prototype.sort` with a
comparator `(a, b) => key a - key b`. -/
def insertionSortBy (le : α → α → Bool) : List α → List α
  | [] => []
  | x :: xs => insertLe le x (insertionSortBy le xs)

/-- Catalog stop record, as in the `mockBusStops` objects of the source:
`id`, `name`, `coordinates` ([lat, lng] pair, opaque to the engine), `type`
(`'main'`, `'regular'`, `'metro'`), `accessibility`, `lines`. -/
structure Stop where
  id : String
  name : String
  coordinates : ℤ × ℤ
  type : String
  accessibility : Bool
  lines : List String
  deriving DecidableEq

/-- Result element of `findNearbyStops`: the spread copy `{...stop,
distance}` of a catalog stop annotated with its distance. -/
structure NearbyStop where
  id : String
  name : String
  coordinates : ℤ × ℤ
  type : String
  accessibility : Bool
  lines : List String
  distance : ℤ
  deriving DecidableEq

/-- The spread copy `{...stop, distance: d}`. -/
def withDistance (stop : Stop) (d : ℤ) : NearbyStop :=
  ⟨stop.id, stop.name, stop.coordinates, stop.type, stop.accessibility, stop.lines, d⟩

/-- The underlying catalog stop of a `NearbyStop` (dropping the annotation). -/
def NearbyStop.toStop (s : NearbyStop) : Stop :=
  ⟨s.id, s.name, s.coordinates, s.type, s.accessibility, s.lines⟩

/-- Stop object as embedded in a route segment.  The three producers store
three different shapes here (a `NearbyStop`, a raw catalog `Stop`, or the
synthetic object of `createExampleRoute`), so the fields absent from some
shapes are `Option`s, `none` playing the role of a missing JS property. -/
structure SegStop where
  id : String
  name : String
  coordinates : ℤ × ℤ
  type : Option String
  accessibility : Bool
  lines : Option (List String)
  distance : Option ℤ
  deriving DecidableEq

/-- A `NearbyStop` stored into a segment keeps all its fields. -/
def NearbyStop.toSegStop (s : NearbyStop) : SegStop :=
  ⟨s.id, s.name, s.coordinates, some s.type, s.accessibility, some s.lines, some s.distance⟩

/-- A raw catalog stop stored into a segment has no `distance` annotation. -/
def Stop.toSegStop (s : Stop) : SegStop :=
  ⟨s.id, s.name, s.coordinates, some s.type, s.accessibility, some s.lines, none⟩

/-- A `caminhadaInicial`/`caminhadaFinal` walking component. -/
structure Walk where
  distancia : ℤ
  tempo : ℤ
  deriving DecidableEq

/-- One transit segment of a route. -/
structure Segmento where
  linha : String
  paradaOrigem : SegStop
  paradaDestino : SegStop
  tempo : ℤ
  paradas : ℤ
  caminhadaInicial : Option Walk
  caminhadaFinal : Option Walk
  deriving DecidableEq

/-- Endpoint (local) handed to the engine: a name and an optional
`coordinates` property (`none` models a missing/undefined property). -/
structure Location where
  name : String
  coordinates : Option (ℤ × ℤ)
  deriving DecidableEq

/-- A calculated route (itinerary).  Only `createExampleRoute` sets an `id`. -/
structure Route where
  id : Option String
  origem : Location
  destino : Location
  tempo_total : ℤ
  distancia_total : ℤ
  transferencias : ℕ
  custo_total : ℤ
  acessibilidade : Bool
  segmentos : List Segmento
  observacoes : List String
  deriving DecidableEq

deriving instance DecidableEq for Except

/-- Abstract metric standing for the haversine `calculateDistance`. -/
abbrev DistFn : Type := (ℤ × ℤ) → (ℤ × ℤ) → ℤ

/-- Embedding of `calculateDistance(coord1, coord2)`.  The numeric value is
delegated to the abstract metric; accessing `coord1[0]` on a missing
coordinates array raises a TypeError, which is the `.error` case. -/
def calculateDistance (calcDist : DistFn) :
    Option (ℤ × ℤ) → Option (ℤ × ℤ) → Except Unit ℤ
  | some c1, some c2 => .ok (calcDist c1 c2)
  | _, _ => .error ()

/-- The `busStops.map(stop => ({...stop, distance: calculateDistance(...)}))`
step of `findNearbyStops`; the first TypeError propagates. -/
def mapDistances (calcDist : DistFn) (coordinates : Option (ℤ × ℤ)) :
    List Stop → Except Unit (List NearbyStop)
  | [] => .ok []
  | stop :: rest =>
    match calculateDistance calcDist coordinates (some stop.coordinates) with
    | .error e => .error e
    | .ok d =>
      match mapDistances calcDist coordinates rest with
      | .error e => .error e
      | .ok tail => .ok (withDistance stop d :: tail)

/-- Embedding of `findNearbyStops(coordinates, busStops, maxDistance, limit)`:
annotate every stop with its distance, keep those with
`distance <= maxDistance`, sort ascending by distance (stable), take the
first `limit`. -/
def findNearbyStops (calcDist : DistFn) (coordinates : Option (ℤ × ℤ))
    (busStops : List Stop) (maxDistance : ℤ) (limit : ℕ) :
    Except Unit (List NearbyStop) :=
  match mapDistances calcDist coordinates busStops with
  | .error e => .error e
  | .ok stopsWithDistance =>
    .ok (((insertionSortBy (fun a b => decide (a.distance ≤ b.distance))
      (stopsWithDistance.filter (fun s => decide (s.distance ≤ maxDistance))))).take limit)

/-- Embedding of `findConnectingLines(originStop, destinationStop)`, which
reads only the `lines` arrays of its two arguments: the common lines in the
order of the origin stop's list, or the fictitious line `'0.999'` when there
is none. -/
def findConnectingLines (originLines destinationLines : List String) : List String :=
  let commonLines := originLines.filter (fun line => destinationLines.contains line)
  if commonLines.isEmpty then ["0.999"] else commonLines

/-- Embedding of `calculateWalkingTime(distance)` with the default walking
speed of 80 m/min: `Math.ceil(distance / 80)`. -/
def calculateWalkingTime (distance : ℤ) : ℤ := jsCeilDiv distance 80

/-- Embedding of `calculateBusTime(distance)` with the default bus speed of
300 m/min: `Math.ceil(distance / 300)`. -/
def calculateBusTime (distance : ℤ) : ℤ := jsCeilDiv distance 300

/-- Embedding of `estimateStopCount(originStop, destinationStop)`:
`Math.max(2, Math.round(distance / 500))`. -/
def estimateStopCount (calcDist : DistFn) (originCoords destinationCoords : ℤ × ℤ) : ℤ :=
  max 2 (jsRoundDiv (calcDist originCoords destinationCoords) 500)

/-- Route object built by the body of `calculateDirectRoute`'s inner loop
once a stop pair with a non-empty `connectingLines` is found. -/
def buildDirectRoute (calcDist : DistFn) (originLocation destinationLocation : Location)
    (originStop destinationStop : NearbyStop) (connectingLines : List String) : Route :=
  let busDistance := calcDist originStop.coordinates destinationStop.coordinates
  let walkToStopDistance := originStop.distance
  let walkFromStopDistance := destinationStop.distance
  let walkToStopTime := calculateWalkingTime walkToStopDistance
  let busTime := calculateBusTime busDistance
  let walkFromStopTime := calculateWalkingTime walkFromStopDistance
  let waitTime : ℤ := if originStop.type = "main" then 8 else 12
  { id := none
    origem := originLocation
    destino := destinationLocation
    tempo_total := walkToStopTime + busTime + walkFromStopTime + waitTime
    distancia_total := walkToStopDistance + busDistance + walkFromStopDistance
    transferencias := 0
    custo_total := 450
    acessibilidade := originStop.accessibility && destinationStop.accessibility
    segmentos := [{
      linha := connectingLines.headD ""
      paradaOrigem := originStop.toSegStop
      paradaDestino := destinationStop.toSegStop
      tempo := busTime
      paradas := estimateStopCount calcDist originStop.coordinates destinationStop.coordinates
      caminhadaInicial :=
        if 50 < walkToStopDistance then some ⟨walkToStopDistance, walkToStopTime⟩ else none
      caminhadaFinal :=
        if 50 < walkFromStopDistance then some ⟨walkFromStopDistance, walkFromStopTime⟩ else none }]
    observacoes := [] }

/-- The double `for` loop of `calculateDirectRoute` with its early `return`:
the first origin-stop/destination-stop pair whose `connectingLines` is
non-empty produces the route. -/
def directSearch (calcDist : DistFn) (originLocation destinationLocation : Location)
    (nearbyOriginStops nearbyDestinationStops : List NearbyStop) : Option Route :=
  nearbyOriginStops.findSome? fun originStop =>
    nearbyDestinationStops.findSome? fun destinationStop =>
      let connectingLines := findConnectingLines originStop.lines destinationStop.lines
      if 0 < connectingLines.length then
        some (buildDirectRoute calcDist originLocation destinationLocation
          originStop destinationStop connectingLines)
      else none

/-- Embedding of `calculateDirectRoute(originLocation, destinationLocation,
busStops)`: nearby stops within 3000 m (limit 10) on both sides, then the
first directly connected pair; `null` when no pair is connected. -/
def calculateDirectRoute (calcDist : DistFn) (originLocation destinationLocation : Location)
    (busStops : List Stop) : Except Unit (Option Route) :=
  match findNearbyStops calcDist originLocation.coordinates busStops 3000 10 with
  | .error e => .error e
  | .ok nearbyOriginStops =>
    match findNearbyStops calcDist destinationLocation.coordinates busStops 3000 10 with
    | .error e => .error e
    | .ok nearbyDestinationStops =>
      .ok (directSearch calcDist originLocation destinationLocation
        nearbyOriginStops nearbyDestinationStops)

/-- The `busStops.filter(stop => stop.type === 'main' && stop.lines.length >= 4)`
hub-candidate selection inside `calculateRouteWithTransfer`. -/
def terminalStops (busStops : List Stop) : List Stop :=
  busStops.filter (fun stop => stop.type == "main" && decide (4 ≤ stop.lines.length))

/-- Hub-candidate selection as the specification words it: cardinality of the
served-lines set at least 4, with no condition on the stop's kind/type.
Modelled from the spec for comparison with `terminalStops`. -/
def specHubCandidates (busStops : List Stop) : List Stop :=
  busStops.filter (fun stop => decide (4 ≤ stop.lines.length))

/-- Route object built by the body of `calculateRouteWithTransfer`'s inner
loop for an origin stop, a destination stop and a terminal. -/
def buildTransferRoute (calcDist : DistFn) (originLocation destinationLocation : Location)
    (originStop destinationStop : NearbyStop) (terminalStop : Stop)
    (firstLeg secondLeg : List String) : Route :=
  let leg1Distance := calcDist originStop.coordinates terminalStop.coordinates
  let leg2Distance := calcDist terminalStop.coordinates destinationStop.coordinates
  let walkToStopDistance := originStop.distance
  let walkFromStopDistance := destinationStop.distance
  let walkToStopTime := calculateWalkingTime walkToStopDistance
  let leg1Time := calculateBusTime leg1Distance
  let transferTime : ℤ := 15
  let leg2Time := calculateBusTime leg2Distance
  let walkFromStopTime := calculateWalkingTime walkFromStopDistance
  { id := none
    origem := originLocation
    destino := destinationLocation
    tempo_total := walkToStopTime + leg1Time + transferTime + leg2Time + walkFromStopTime + 12
    distancia_total := walkToStopDistance + leg1Distance + leg2Distance + walkFromStopDistance
    transferencias := 1
    custo_total := 900
    acessibilidade := originStop.accessibility && terminalStop.accessibility
      && destinationStop.accessibility
    segmentos := [
      { linha := firstLeg.headD ""
        paradaOrigem := originStop.toSegStop
        paradaDestino := terminalStop.toSegStop
        tempo := leg1Time
        paradas := estimateStopCount calcDist originStop.coordinates terminalStop.coordinates
        caminhadaInicial :=
          if 50 < walkToStopDistance then some ⟨walkToStopDistance, walkToStopTime⟩ else none
        caminhadaFinal := none },
      { linha := secondLeg.headD ""
        paradaOrigem := terminalStop.toSegStop
        paradaDestino := destinationStop.toSegStop
        tempo := leg2Time
        paradas := estimateStopCount calcDist terminalStop.coordinates destinationStop.coordinates
        caminhadaInicial := none
        caminhadaFinal :=
          if 50 < walkFromStopDistance then some ⟨walkFromStopDistance, walkFromStopTime⟩ else none }]
    observacoes := ["Baldeação em " ++ terminalStop.name,
      "Aguarde o próximo ônibus no mesmo terminal"] }

/-- The triple `for` loop of `calculateRouteWithTransfer` with its early
`return`. -/
def transferSearch (calcDist : DistFn) (originLocation destinationLocation : Location)
    (nearbyOriginStops nearbyDestinationStops : List NearbyStop)
    (terminals : List Stop) : Option Route :=
  nearbyOriginStops.findSome? fun originStop =>
    nearbyDestinationStops.findSome? fun destinationStop =>
      terminals.findSome? fun terminalStop =>
        let firstLeg := findConnectingLines originStop.lines terminalStop.lines
        let secondLeg := findConnectingLines terminalStop.lines destinationStop.lines
        if 0 < firstLeg.length ∧ 0 < secondLeg.length then
          some (buildTransferRoute calcDist originLocation destinationLocation
            originStop destinationStop terminalStop firstLeg secondLeg)
        else none

/-- Embedding of `calculateRouteWithTransfer(originLocation,
destinationLocation, busStops)`. -/
def calculateRouteWithTransfer (calcDist : DistFn)
    (originLocation destinationLocation : Location) (busStops : List Stop) :
    Except Unit (Option Route) :=
  match findNearbyStops calcDist originLocation.coordinates busStops 3000 10 with
  | .error e => .error e
  | .ok nearbyOriginStops =>
    match findNearbyStops calcDist destinationLocation.coordinates busStops 3000 10 with
    | .error e => .error e
    | .ok nearbyDestinationStops =>
      .ok (transferSearch calcDist originLocation destinationLocation
        nearbyOriginStops nearbyDestinationStops (terminalStops busStops))

set_option linter.unusedVariables false in
/-- Embedding of `createExampleRoute(originLocation, destinationLocation,
busStops)`: the synthetic fallback itinerary.  It returns `null` when either
location lacks coordinates and otherwise never reads `busStops`. -/
def createExampleRoute (calcDist : DistFn) (originLocation destinationLocation : Location)
    (busStops : List Stop) : Option Route :=
  match originLocation.coordinates, destinationLocation.coordinates with
  | some originCoords, some destinationCoords =>
    let directDistance := calcDist originCoords destinationCoords
    let walkToStopTime : ℤ := 8
    let busTime := max 25 (jsRoundDiv directDistance 300)
    let walkFromStopTime : ℤ := 5
    let waitTime : ℤ := 10
    some
      { id := some "example-route-1"
        origem := originLocation
        destino := destinationLocation
        tempo_total := walkToStopTime + busTime + walkFromStopTime + waitTime
        distancia_total := directDistance + 600
        transferencias := 0
        custo_total := 450
        acessibilidade := true
        segmentos := [{
          linha := "0.111"
          paradaOrigem := ⟨"example-origin", "Parada próxima a " ++ originLocation.name,
            originCoords, none, true, none, none⟩
          paradaDestino := ⟨"example-destination", "Parada próxima a " ++ destinationLocation.name,
            destinationCoords, none, true, none, none⟩
          tempo := busTime
          paradas := max 3 (jsRoundDiv directDistance 800)
          caminhadaInicial := some ⟨400, walkToStopTime⟩
          caminhadaFinal := some ⟨200, walkFromStopTime⟩ }]
        observacoes := ["Rota calculada com base na distância entre os pontos",
          "Horários e linhas podem variar - consulte o DFTrans"] }
  | _, _ => none

/-- Key read by the `routes.sort((a, b) => a.tempo_total - b.tempo_total)`
comparator.  The `getD 0` default is never consulted: JS invokes the
comparator only on arrays of length ≥ 2, and `sortRoutesByTempo` sorts only
when every element is non-null. -/
def getTempo (r : Option Route) : ℤ := (r.map Route.tempo_total).getD 0

/-- Total distance of a possibly-null route, used only to state theorems. -/
def getDistTotal (r : Option Route) : ℤ := (r.map Route.distancia_total).getD 0

/-- Embedding of `routes.sort((a, b) => a.tempo_total - b.tempo_total)`.
JS never calls the comparator on an array of length ≤ 1; on longer arrays
containing `null` the comparator would throw a TypeError (that situation is
unreachable from `calculateRoutes`, see `tryCalculateRoutes`). -/
def sortRoutesByTempo (routes : List (Option Route)) : Except Unit (List (Option Route)) :=
  if routes.length ≤ 1 then .ok routes
  else if routes.all Option.isSome then
    .ok (insertionSortBy (fun a b => decide (getTempo a ≤ getTempo b)) routes)
  else .error ()

/-- The `try` block of `calculateRoutes`: always put the example route into
the pool, additionally push a direct route when one is found, then sort by
total time.  The transfer builder is never invoked here. -/
def tryCalculateRoutes (calcDist : DistFn) (originLocation destinationLocation : Location)
    (busStops : List Stop) : Except Unit (List (Option Route)) :=
  let exampleRoute := createExampleRoute calcDist originLocation destinationLocation busStops
  match calculateDirectRoute calcDist originLocation destinationLocation busStops with
  | .error e => .error e
  | .ok directRoute =>
    let routes : List (Option Route) :=
      match directRoute with
      | some r => [exampleRoute, some r]
      | none => [exampleRoute]
    sortRoutesByTempo routes

/-- Embedding of `calculateRoutes(originLocation, destinationLocation,
busStops)`: the `try` block above, and on any caught error the fallback
`createExampleRoute` result (wrapped in a singleton when non-null, the empty
list otherwise). -/
def calculateRoutes (calcDist : DistFn) (originLocation destinationLocation : Location)
    (busStops : List Stop) : List (Option Route) :=
  match tryCalculateRoutes calcDist originLocation destinationLocation busStops with
  | .ok routes => routes
  | .error _ =>
    match createExampleRoute calcDist originLocation destinationLocation busStops with
    | some fallbackRoute => [some fallbackRoute]
    | none => []

/-- A sample metric (taxicab distance on the coordinate pairs) used for
concrete instantiations of the abstract `calcDist` parameter. -/
def mdist : DistFn := fun a b =>
  (if a.1 ≤ b.1 then b.1 - a.1 else a.1 - b.1) + (if a.2 ≤ b.2 then b.2 - a.2 else a.2 - b.2)

/-- Sum of the transit durations recorded in a route's segments. -/
def segTempoSum (r : Route) : ℤ := (r.segmentos.map Segmento.tempo).sum

/-- Sum over a route's segments of the metric distance between the two stops
of the segment (the quantity `calculateBusTime` is fed from). -/
def segTransitDistSum (calcDist : DistFn) (r : Route) : ℤ :=
  (r.segmentos.map (fun seg => calcDist seg.paradaOrigem.coordinates seg.paradaDestino.coordinates)).sum

/-- Sum of every duration recorded in a route's segments: transit times plus
the durations of the walking components actually present (an omitted walking
component contributes nothing). -/
def recordedDurationSum (r : Route) : ℤ :=
  (r.segmentos.map (fun seg => seg.tempo
    + ((seg.caminhadaInicial.map Walk.tempo).getD 0)
    + ((seg.caminhadaFinal.map Walk.tempo).getD 0))).sum

/-- Concrete endpoint pair and catalog exercising the direct-route
cross-product: three stops share line L1 and all are within 3000 m of both
endpoints, so several stop pairs would each yield a direct itinerary. -/
def c2Origin : Location := ⟨"o", some (0, 0)⟩

def c2Destination : Location := ⟨"d", some (0, 1000)⟩

def c2StopA : Stop := ⟨"s1", "S1", (0, 100), "regular", true, ["L1"]⟩

def c2StopB : Stop := ⟨"s2", "S2", (0, 200), "regular", true, ["L1"]⟩

def c2StopC : Stop := ⟨"s3", "S3", (0, 900), "regular", true, ["L1"]⟩

def c2Catalog : List Stop := [c2StopA, c2StopB, c2StopC]

/-- Concrete endpoint pair and catalog on which all three route builders
produce an itinerary (the second stop is a `'main'` hub with four lines). -/
def c5Origin : Location := ⟨"o", some (0, 0)⟩

def c5Destination : Location := ⟨"d", some (0, 1000)⟩

def c5StopA : Stop := ⟨"s1", "S1", (0, 100), "regular", true, ["L1"]⟩

def c5StopB : Stop := ⟨"s2", "S2", (0, 900), "main", true, ["L1", "L2", "L3", "L4"]⟩

def c5Catalog : List Stop := [c5StopA, c5StopB]

/-- The direct route the engine returns on `c5Catalog` (first cross-product
pair: S1 at 100 m from the origin, S2 at 100 m from the destination). -/
def c5DirectRoute : Route :=
  buildDirectRoute mdist c5Origin c5Destination (withDistance c5StopA 100)
    (withDistance c5StopB 100) (findConnectingLines c5StopA.lines c5StopB.lines)

/-- The transfer route the engine returns on `c5Catalog` (terminal S2). -/
def c5TransferRoute : Route :=
  buildTransferRoute mdist c5Origin c5Destination (withDistance c5StopA 100)
    (withDistance c5StopB 100) c5StopB (findConnectingLines c5StopA.lines c5StopB.lines)
    (findConnectingLines c5StopB.lines c5StopB.lines)

/-- The fallback route the engine returns for `c5Origin`/`c5Destination`
(straight-line distance 1000 m under the taxicab metric). -/
def c5ExampleRoute : Route :=
  { id := some "example-route-1"
    origem := c5Origin
    destino := c5Destination
    tempo_total := 48
    distancia_total := 1600
    transferencias := 0
    custo_total := 450
    acessibilidade := true
    segmentos := [{
      linha := "0.111"
      paradaOrigem := ⟨"example-origin", "Parada próxima a o", (0, 0), none, true, none, none⟩
      paradaDestino := ⟨"example-destination", "Parada próxima a d", (0, 1000), none, true, none, none⟩
      tempo := 25
      paradas := 3
      caminhadaInicial := some ⟨400, 8⟩
      caminhadaFinal := some ⟨200, 5⟩ }]
    observacoes := ["Rota calculada com base na distância entre os pontos",
      "Horários e linhas podem variar - consulte o DFTrans"] }

/-- Catalog whose first stop is only 40 m from the origin: the initial walk
falls under the 50 m omission threshold while still costing one minute. -/
def c5ShortWalkCatalog : List Stop :=
  [⟨"s1", "S1", (0, 40), "regular", true, ["L1"]⟩,
   ⟨"s2", "S2", (0, 900), "regular", true, ["L1"]⟩]

theorem insertLe_perm (le : α → α → Bool) (x : α) (l : List α) :
    (insertLe le x l).Perm (x :: l) := by
  induction l with
  | nil => exact List.Perm.refl _
  | cons y ys ih =>
    cases h : le x y with
    | true => simp [insertLe, h]
    | false =>
      simp only [insertLe, h, Bool.false_eq_true, if_false]
      exact (ih.cons y).trans (List.Perm.swap x y ys)

theorem insertionSortBy_perm (le : α → α → Bool) (l : List α) :
    (insertionSortBy le l).Perm l := by
  induction l with
  | nil => exact List.Perm.refl _
  | cons x xs ih => exact (insertLe_perm le x _).trans (ih.cons x)

theorem mem_insertionSortBy (le : α → α → Bool) (l : List α) (a : α) :
    a ∈ insertionSortBy le l ↔ a ∈ l :=
  (insertionSortBy_perm le l).mem_iff

theorem pairwise_insertLe [LinearOrder β] (k : α → β) (x : α) (l : List α)
    (h : l.Pairwise (fun a b => k a ≤ k b)) :
    (insertLe (fun a b => decide (k a ≤ k b)) x l).Pairwise (fun a b => k a ≤ k b) := by
  induction l with
  | nil => simp [insertLe]
  | cons y ys ih =>
    rcases List.pairwise_cons.mp h with ⟨hy, hys⟩
    by_cases hxy : k x ≤ k y
    · have hb : (decide (k x ≤ k y)) = true := by simp [hxy]
      simp only [insertLe, hb, if_true]
      refine List.pairwise_cons.mpr ⟨?_, h⟩
      intro z hz
      rcases List.mem_cons.mp hz with rfl | hzys
      · exact hxy
      · exact hxy.trans (hy z hzys)
    · have hb : (decide (k x ≤ k y)) = false := by simp [hxy]
      simp only [insertLe, hb, Bool.false_eq_true, if_false]
      refine List.pairwise_cons.mpr ⟨?_, ih hys⟩
      intro z hz
      rcases List.mem_cons.mp ((insertLe_perm _ x ys).mem_iff.mp hz) with rfl | hzys
      · exact le_of_not_le hxy
      · exact hy z hzys

theorem pairwise_insertionSortBy [LinearOrder β] (k : α → β) (l : List α) :
    (insertionSortBy (fun a b => decide (k a ≤ k b)) l).Pairwise (fun a b => k a ≤ k b) := by
  induction l with
  | nil => simp [insertionSortBy]
  | cons x xs ih => exact pairwise_insertLe k x _ ih

theorem exists_of_findSome? {f : α → Option β} {l : List α} {b : β}
    (h : l.findSome? f = some b) : ∃ a, a ∈ l ∧ f a = some b := by
  induction l with
  | nil => simp [List.findSome?] at h
  | cons x xs ih =>
    rw [List.findSome?_cons] at h
    cases hfx : f x with
    | some c =>
      rw [hfx] at h
      simp only [Option.some.injEq] at h
      exact ⟨x, List.mem_cons_self x xs, by rw [hfx, h]⟩
    | none =>
      rw [hfx] at h
      rcases ih h with ⟨a, ha, hfa⟩
      exact ⟨a, List.mem_cons_of_mem x ha, hfa⟩

theorem mapDistances_some (calcDist : DistFn) (c : ℤ × ℤ) (stops : List Stop) :
    mapDistances calcDist (some c) stops
      = .ok (stops.map (fun s => withDistance s (calcDist c s.coordinates))) := by
  induction stops with
  | nil => rfl
  | cons s rest ih => simp [mapDistances, calculateDistance, ih]

/-- Pure value of `findNearbyStops` when the query point is present. -/
def nearbyStopsList (calcDist : DistFn) (c : ℤ × ℤ) (busStops : List Stop)
    (maxDistance : ℤ) (limit : ℕ) : List NearbyStop :=
  (insertionSortBy (fun a b => decide (a.distance ≤ b.distance))
    ((busStops.map (fun s => withDistance s (calcDist c s.coordinates))).filter
      (fun s => decide (s.distance ≤ maxDistance)))).take limit

theorem findNearbyStops_some (calcDist : DistFn) (c : ℤ × ℤ) (busStops : List Stop)
    (maxDistance : ℤ) (limit : ℕ) :
    findNearbyStops calcDist (some c) busStops maxDistance limit
      = .ok (nearbyStopsList calcDist c busStops maxDistance limit) := by
  rw [findNearbyStops, mapDistances_some]
  rfl

theorem findConnectingLines_ne_nil (originLines destinationLines : List String) :
    findConnectingLines originLines destinationLines ≠ [] := by
  rw [findConnectingLines]
  split
  · simp
  · next h => exact fun hc => h (by rw [hc]; rfl)

theorem sortRoutesByTempo_ok_perm {rs out : List (Option Route)}
    (h : sortRoutesByTempo rs = .ok out) : out.Perm rs := by
  unfold sortRoutesByTempo at h
  split at h
  · cases h; exact List.Perm.refl _
  · split at h
    · cases h; exact insertionSortBy_perm _ _
    · cases h

theorem sortRoutesByTempo_ok_chain' {rs out : List (Option Route)}
    (h : sortRoutesByTempo rs = .ok out) :
    out.Chain' (fun a b => getTempo a ≤ getTempo b) := by
  unfold sortRoutesByTempo at h
  split at h
  · next hlen =>
    cases h
    match rs, hlen with
    | [], _ => exact List.chain'_nil
    | [x], _ => exact List.chain'_singleton x
    | x :: y :: zs, hlen => simp at hlen
  · split at h
    · cases h; exact (pairwise_insertionSortBy getTempo rs).chain'
    · cases h

theorem calculateRoutes_of_coords (calcDist : DistFn) (o d : Location) (stops : List Stop)
    (co cd : ℤ × ℤ) (hco : o.coordinates = some co) (hcd : d.coordinates = some cd) :
    ∃ ex : Route, createExampleRoute calcDist o d stops = some ex
      ∧ ((∃ dr, calculateDirectRoute calcDist o d stops = .ok (some dr)
            ∧ (calculateRoutes calcDist o d stops).Perm [some ex, some dr])
        ∨ (calculateDirectRoute calcDist o d stops = .ok none
            ∧ calculateRoutes calcDist o d stops = [some ex])) := by
  have hex : ∃ ex : Route, createExampleRoute calcDist o d stops = some ex := by
    rw [createExampleRoute, hco, hcd]; exact ⟨_, rfl⟩
  rcases hex with ⟨ex, hex⟩
  have hdr : calculateDirectRoute calcDist o d stops
      = .ok (directSearch calcDist o d
          (nearbyStopsList calcDist co stops 3000 10)
          (nearbyStopsList calcDist cd stops 3000 10)) := by
    rw [calculateDirectRoute, hco, hcd, findNearbyStops_some, findNearbyStops_some]
  refine ⟨ex, hex, ?_⟩
  cases hds : directSearch calcDist o d
      (nearbyStopsList calcDist co stops 3000 10)
      (nearbyStopsList calcDist cd stops 3000 10) with
  | none =>
    refine Or.inr ⟨hds ▸ hdr, ?_⟩
    rw [calculateRoutes, tryCalculateRoutes, hex, hdr, hds]
    rfl
  | some dr =>
    refine Or.inl ⟨dr, hds ▸ hdr, ?_⟩
    have h1 : tryCalculateRoutes calcDist o d stops
        = sortRoutesByTempo [some ex, some dr] := by
      rw [tryCalculateRoutes, hdr, hds, hex]
    have h2 : sortRoutesByTempo [some ex, some dr]
        = .ok (insertionSortBy (fun a b => decide (getTempo a ≤ getTempo b))
            [some ex, some dr]) := rfl
    have h3 : calculateRoutes calcDist o d stops
        = insertionSortBy (fun a b => decide (getTempo a ≤ getTempo b)) [some ex, some dr] := by
      rw [calculateRoutes, h1, h2]
    rw [h3]
    exact insertionSortBy_perm _ _

/-- Production of a direct route forces both endpoints to carry coordinates:
with a missing coordinates array the builder either throws (non-empty
catalog) or finds no nearby stops at all (empty catalog). -/
theorem coords_of_directRoute (calcDist : DistFn) (o d : Location) (stops : List Stop)
    (r : Route) (h : calculateDirectRoute calcDist o d stops = .ok (some r)) :
    ∃ co cd, o.coordinates = some co ∧ d.coordinates = some cd := by
  cases hoc : o.coordinates with
  | none =>
    exfalso
    cases stops with
    | nil =>
      have h0 : calculateDirectRoute calcDist o d [] = .ok none := rfl
      rw [h0] at h
      exact Option.noConfusion (Except.ok.inj h)
    | cons s rest =>
      have h0 : calculateDirectRoute calcDist o d (s :: rest) = .error () := by
        rw [calculateDirectRoute, hoc]
        rfl
      rw [h0] at h
      exact Except.noConfusion h
  | some co =>
    cases hdc : d.coordinates with
    | none =>
      exfalso
      cases stops with
      | nil =>
        have h0 : calculateDirectRoute calcDist o d [] = .ok none := rfl
        rw [h0] at h
        exact Option.noConfusion (Except.ok.inj h)
      | cons s rest =>
        have h0 : calculateDirectRoute calcDist o d (s :: rest) = .error () := by
          rw [calculateDirectRoute, hoc, findNearbyStops_some, hdc]
          rfl
        rw [h0] at h
        exact Except.noConfusion h
    | some cd => exact ⟨co, cd, rfl, rfl⟩

/-- Production of a transfer route forces both endpoints to carry
coordinates, for the same reasons as `coords_of_directRoute`. -/
theorem coords_of_transferRoute (calcDist : DistFn) (o d : Location) (stops : List Stop)
    (r : Route) (h : calculateRouteWithTransfer calcDist o d stops = .ok (some r)) :
    ∃ co cd, o.coordinates = some co ∧ d.coordinates = some cd := by
  cases hoc : o.coordinates with
  | none =>
    exfalso
    cases stops with
    | nil =>
      have h0 : calculateRouteWithTransfer calcDist o d [] = .ok none := rfl
      rw [h0] at h
      exact Option.noConfusion (Except.ok.inj h)
    | cons s rest =>
      have h0 : calculateRouteWithTransfer calcDist o d (s :: rest) = .error () := by
        rw [calculateRouteWithTransfer, hoc]
        rfl
      rw [h0] at h
      exact Except.noConfusion h
  | some co =>
    cases hdc : d.coordinates with
    | none =>
      exfalso
      cases stops with
      | nil =>
        have h0 : calculateRouteWithTransfer calcDist o d [] = .ok none := rfl
        rw [h0] at h
        exact Option.noConfusion (Except.ok.inj h)
      | cons s rest =>
        have h0 : calculateRouteWithTransfer calcDist o d (s :: rest) = .error () := by
          rw [calculateRouteWithTransfer, hoc, findNearbyStops_some, hdc]
          rfl
        rw [h0] at h
        exact Except.noConfusion h
    | some cd => exact ⟨co, cd, rfl, rfl⟩

/-- Production of the fallback route forces both endpoints to carry
coordinates (the builder checks them first and returns `null` otherwise). -/
theorem coords_of_exampleRoute (calcDist : DistFn) (o d : Location) (stops : List Stop)
    (r : Route) (h : createExampleRoute calcDist o d stops = some r) :
    ∃ co cd, o.coordinates = some co ∧ d.coordinates = some cd := by
  cases hoc : o.coordinates with
  | none =>
    rw [createExampleRoute, hoc] at h
    exact Option.noConfusion h
  | some co =>
    cases hdc : d.coordinates with
    | none =>
      rw [createExampleRoute, hoc, hdc] at h
      exact Option.noConfusion h
    | some cd => exact ⟨co, cd, rfl, rfl⟩

set_option linter.unusedVariables false in
/-- C1: for every metric, every pair of endpoints carrying (finite, distinct)
coordinates and every catalog — including the empty one — `calculateRoutes`
returns at least one itinerary, and the synthetic fallback itinerary built by
`createExampleRoute` is always among the returned candidates.  (Distinctness
of the coordinates is mirrored from the claim; the proof does not need it.) -/
theorem c1_always_returns_route (calcDist : DistFn) (o d : Location) (stops : List Stop)
    (co cd : ℤ × ℤ) (hco : o.coordinates = some co) (hcd : d.coordinates = some cd)
    (hne : co ≠ cd) :
    ∃ r : Route, createExampleRoute calcDist o d stops = some r
      ∧ some r ∈ calculateRoutes calcDist o d stops
      ∧ 1 ≤ (calculateRoutes calcDist o d stops).length := by
  rcases calculateRoutes_of_coords calcDist o d stops co cd hco hcd with ⟨ex, hex, hcase⟩
  refine ⟨ex, hex, ?_, ?_⟩
  · rcases hcase with ⟨dr, _, hperm⟩ | ⟨_, heq⟩
    · exact hperm.mem_iff.mpr (by simp)
    · rw [heq]; simp
  · rcases hcase with ⟨dr, _, hperm⟩ | ⟨_, heq⟩
    · rw [hperm.length_eq]; simp
    · rw [heq]; simp

/-- C1 witness: the theorem applied to the taxicab metric, two concrete
distinct endpoints and the empty catalog. -/
theorem c1_witness :
    ((0, 0) : ℤ × ℤ) ≠ (0, 30000)
    ∧ ∃ r : Route,
        createExampleRoute mdist ⟨"Origem", some (0, 0)⟩ ⟨"Destino", some (0, 30000)⟩ [] = some r
        ∧ some r ∈ calculateRoutes mdist ⟨"Origem", some (0, 0)⟩ ⟨"Destino", some (0, 30000)⟩ []
        ∧ 1 ≤ (calculateRoutes mdist ⟨"Origem", some (0, 0)⟩ ⟨"Destino", some (0, 30000)⟩ []).length :=
  ⟨by decide, c1_always_returns_route mdist _ _ [] (0, 0) (0, 30000) rfl rfl (by decide)⟩

/-- C3 counterexample: for stops with line lists `["X"]` and `["Y"]` the
intersection is empty, yet `findConnectingLines` returns the invented line
code `"0.999"` rather than the empty list; and for line lists `["B", "A"]`
and `["A", "B"]` the result keeps the origin stop's order, not ascending
lexical order. -/
theorem c3_counterexample :
    findConnectingLines ["X"] ["Y"] = ["0.999"]
    ∧ ("0.999" : String) ∉ (["X"] : List String)
    ∧ ("0.999" : String) ∉ (["Y"] : List String)
    ∧ findConnectingLines ["B", "A"] ["A", "B"] = ["B", "A"] := by decide

/-- C3 amended: `findConnectingLines` returns the set intersection of the two
stops' line lists in the order of the origin stop's list when that
intersection is non-empty, and the fictitious singleton `["0.999"]` when it
is empty. -/
theorem c3_amended (originLines destinationLines : List String) :
    (findConnectingLines originLines destinationLines
      = if originLines.filter (fun line => destinationLines.contains line) = []
        then ["0.999"]
        else originLines.filter (fun line => destinationLines.contains line))
    ∧ ∀ line : String,
        line ∈ originLines.filter (fun line => destinationLines.contains line)
          ↔ (line ∈ originLines ∧ line ∈ destinationLines) := by
  constructor
  · rw [findConnectingLines]
    by_cases h : originLines.filter (fun line => destinationLines.contains line) = []
    · simp [h]
    · simp [h, List.isEmpty_iff]
  · intro line
    simp [List.mem_filter, List.elem_iff]

/-- C4 counterexample: a concrete metric, endpoint pair and two-stop catalog
on which `calculateRoutes` returns two itineraries with equal `tempo_total`
(123 and 123) where the first has the strictly larger `distancia_total`
(30600 before 30000): the claimed distance tie-break does not exist, the
comparator reads only `tempo_total`. -/
theorem c4_counterexample :
    ((calculateRoutes mdist ⟨"o", some (0, 0)⟩ ⟨"d", some (0, 30000)⟩
        [⟨"t1", "T1", (0, 1120), "regular", true, ["L1"]⟩,
         ⟨"t2", "T2", (0, 30000), "regular", true, ["L1"]⟩]).map
        (fun x => (getTempo x, getDistTotal x)))
      = [(123, 30600), (123, 30000)]
    ∧ ((30000 : ℤ) < 30600) := by decide

/-- C4 amended: the list returned by `calculateRoutes` is always
non-decreasing in `tempo_total` (the sort is stable with ties left in
insertion order; there is no tie-break on distance or transfer count). -/
theorem c4_amended (calcDist : DistFn) (o d : Location) (stops : List Stop) :
    List.Chain' (fun a b => getTempo a ≤ getTempo b) (calculateRoutes calcDist o d stops) := by
  rw [calculateRoutes]
  cases htry : tryCalculateRoutes calcDist o d stops with
  | ok routes =>
    rw [tryCalculateRoutes] at htry
    cases hdr : calculateDirectRoute calcDist o d stops with
    | error e => rw [hdr] at htry; simp at htry
    | ok directRoute =>
      rw [hdr] at htry
      cases directRoute with
      | some r => exact sortRoutesByTempo_ok_chain' htry
      | none => exact sortRoutesByTempo_ok_chain' htry
  | error e =>
    cases hfb : createExampleRoute calcDist o d stops with
    | some fallbackRoute => simp
    | none => simp

/-- C6 counterexample: a stop of type `'regular'` serving five lines has the
required line-set cardinality but is excluded from the hub-candidate set by
the `type === 'main'` conjunct, so candidate membership does depend on the
stop's kind; behaviourally, `calculateRouteWithTransfer` finds no route on
this catalog although the spec's cardinality-only candidate set would yield
one. -/
theorem c6_counterexample :
    4 ≤ (⟨"hub", "Hub", (0, 60), "regular", true, ["L1", "L2", "L3", "L4", "L5"]⟩ : Stop).lines.length
    ∧ terminalStops
        [⟨"s", "S", (0, 50), "regular", true, ["L1"]⟩,
         ⟨"hub", "Hub", (0, 60), "regular", true, ["L1", "L2", "L3", "L4", "L5"]⟩] = []
    ∧ specHubCandidates
        [⟨"s", "S", (0, 50), "regular", true, ["L1"]⟩,
         ⟨"hub", "Hub", (0, 60), "regular", true, ["L1", "L2", "L3", "L4", "L5"]⟩]
      = [⟨"hub", "Hub", (0, 60), "regular", true, ["L1", "L2", "L3", "L4", "L5"]⟩]
    ∧ calculateRouteWithTransfer mdist ⟨"o", some (0, 0)⟩ ⟨"d", some (0, 100)⟩
        [⟨"s", "S", (0, 50), "regular", true, ["L1"]⟩,
         ⟨"hub", "Hub", (0, 60), "regular", true, ["L1", "L2", "L3", "L4", "L5"]⟩] = .ok none
    ∧ (transferSearch mdist ⟨"o", some (0, 0)⟩ ⟨"d", some (0, 100)⟩
        (nearbyStopsList mdist (0, 0)
          [⟨"s", "S", (0, 50), "regular", true, ["L1"]⟩,
           ⟨"hub", "Hub", (0, 60), "regular", true, ["L1", "L2", "L3", "L4", "L5"]⟩] 3000 10)
        (nearbyStopsList mdist (0, 100)
          [⟨"s", "S", (0, 50), "regular", true, ["L1"]⟩,
           ⟨"hub", "Hub", (0, 60), "regular", true, ["L1", "L2", "L3", "L4", "L5"]⟩] 3000 10)
        (specHubCandidates
          [⟨"s", "S", (0, 50), "regular", true, ["L1"]⟩,
           ⟨"hub", "Hub", (0, 60), "regular", true, ["L1", "L2", "L3", "L4", "L5"]⟩])).isSome
      = true := by decide

/-- C6 amended: the hub-candidate stops of the transfer builder are exactly
the catalog stops whose `type` is `'main'` and whose line list has length at
least 4 — cardinality alone is not sufficient. -/
theorem c6_amended (busStops : List Stop) (s : Stop) :
    s ∈ terminalStops busStops ↔ (s ∈ busStops ∧ s.type = "main" ∧ 4 ≤ s.lines.length) := by
  simp [terminalStops, List.mem_filter, and_assoc]

/-- C10 counterexample: with a missing origin `coordinates` property and an
empty catalog, no internal error is thrown, `createExampleRoute` returns
`null`, and `calculateRoutes` returns the one-element list `[null]` — not the
empty list the claim asserts. -/
theorem c10_counterexample :
    calculateRoutes mdist ⟨"a", none⟩ ⟨"b", some (0, 0)⟩ [] = [none]
    ∧ ([none] : List (Option Route)) ≠ [] := by decide

/-- C10 amended: when either endpoint lacks coordinates, `calculateRoutes`
still never propagates an error; with a non-empty catalog the internal
TypeError of the distance computation is caught and, the fallback being
`null`, the empty list is returned — but with an empty catalog nothing
throws and the returned list is `[null]`. -/
theorem c10_amended (calcDist : DistFn) (o d : Location) (stops : List Stop)
    (h : o.coordinates = none ∨ d.coordinates = none) :
    calculateRoutes calcDist o d stops = if stops.isEmpty then [none] else [] := by
  have hex : createExampleRoute calcDist o d stops = none := by
    rcases h with h | h
    · rw [createExampleRoute, h]
    · cases hoc : o.coordinates with
      | none => rw [createExampleRoute, hoc]
      | some co => rw [createExampleRoute, hoc, h]
  cases hstops : stops with
  | nil =>
    rw [hstops] at hex
    have hdr : calculateDirectRoute calcDist o d [] = .ok none := rfl
    rw [calculateRoutes, tryCalculateRoutes, hdr, hex]
    rfl
  | cons s rest =>
    rw [hstops] at hex
    have hdr : ∃ e, calculateDirectRoute calcDist o d (s :: rest) = .error e := by
      rcases h with h | h
      · rw [calculateDirectRoute, h]
        exact ⟨(), rfl⟩
      · cases hoc : o.coordinates with
        | none => rw [calculateDirectRoute, hoc]; exact ⟨(), rfl⟩
        | some co =>
          rw [calculateDirectRoute, hoc, findNearbyStops_some, h]
          exact ⟨(), rfl⟩
    rcases hdr with ⟨e, hdr⟩
    rw [calculateRoutes, tryCalculateRoutes, hdr, hex]
    rfl

/-- C10 witness: the amended statement applied to the taxicab metric, an
origin without coordinates and the empty catalog. -/
theorem c10_witness :
    ((⟨"a", none⟩ : Location).coordinates = none ∨ (⟨"b", some (0, 0)⟩ : Location).coordinates = none)
    ∧ calculateRoutes mdist ⟨"a", none⟩ ⟨"b", some (0, 0)⟩ []
        = if ([] : List Stop).isEmpty then [none] else [] :=
  ⟨Or.inl rfl, c10_amended mdist ⟨"a", none⟩ ⟨"b", some (0, 0)⟩ [] (Or.inl rfl)⟩

/-- C2 counterexample: on `c2Catalog` the stop pair (S2, S3) lies in the
nearby-origin × nearby-destination cross-product and the direct builder's
body yields an itinerary for it, yet that itinerary is absent from the pool
`calculateRoutes` returns: the orchestrator keeps only the first direct
itinerary found and never invokes the transfer builder at all. -/
theorem c2_counterexample :
    (withDistance c2StopB 200) ∈ nearbyStopsList mdist (0, 0) c2Catalog 3000 10
    ∧ (withDistance c2StopC 100) ∈ nearbyStopsList mdist (0, 1000) c2Catalog 3000 10
    ∧ 0 < (findConnectingLines (withDistance c2StopB 200).lines
        (withDistance c2StopC 100).lines).length
    ∧ some (buildDirectRoute mdist c2Origin c2Destination (withDistance c2StopB 200)
        (withDistance c2StopC 100)
        (findConnectingLines (withDistance c2StopB 200).lines (withDistance c2StopC 100).lines))
      ∉ calculateRoutes mdist c2Origin c2Destination c2Catalog := by decide

/-- C2 amended: the pool collected by `calculateRoutes` consists of the
fallback itinerary plus at most one direct itinerary (the first one the
direct builder's cross-product scan finds); the transfer builder contributes
nothing to it. -/
theorem c2_amended (calcDist : DistFn) (o d : Location) (stops : List Stop)
    (co cd : ℤ × ℤ) (hco : o.coordinates = some co) (hcd : d.coordinates = some cd) :
    (calculateRoutes calcDist o d stops).length ≤ 2
    ∧ ∀ x ∈ calculateRoutes calcDist o d stops,
        (∃ r, createExampleRoute calcDist o d stops = some r ∧ x = some r)
        ∨ (∃ r, calculateDirectRoute calcDist o d stops = .ok (some r) ∧ x = some r) := by
  rcases calculateRoutes_of_coords calcDist o d stops co cd hco hcd with ⟨ex, hex, hcase⟩
  rcases hcase with ⟨dr, hdr, hperm⟩ | ⟨hdr, heq⟩
  · refine ⟨by rw [hperm.length_eq]; simp, ?_⟩
    intro x hx
    have hx2 := hperm.mem_iff.mp hx
    simp only [List.mem_cons, List.not_mem_nil, or_false] at hx2
    rcases hx2 with rfl | rfl
    · exact Or.inl ⟨ex, hex, rfl⟩
    · exact Or.inr ⟨dr, hdr, rfl⟩
  · refine ⟨by rw [heq]; simp, ?_⟩
    intro x hx
    rw [heq] at hx
    simp only [List.mem_singleton] at hx
    exact Or.inl ⟨ex, hex, hx⟩

/-- C2 amended witness: the amended statement applied to the `c2Catalog`
input. -/
theorem c2_witness :
    c2Origin.coordinates = some (0, 0)
    ∧ c2Destination.coordinates = some (0, 1000)
    ∧ ((calculateRoutes mdist c2Origin c2Destination c2Catalog).length ≤ 2
      ∧ ∀ x ∈ calculateRoutes mdist c2Origin c2Destination c2Catalog,
          (∃ r, createExampleRoute mdist c2Origin c2Destination c2Catalog = some r ∧ x = some r)
          ∨ (∃ r, calculateDirectRoute mdist c2Origin c2Destination c2Catalog = .ok (some r)
              ∧ x = some r)) :=
  ⟨rfl, rfl, c2_amended mdist c2Origin c2Destination c2Catalog (0, 0) (0, 1000) rfl rfl⟩

/-- C7: for every metric and endpoints with coordinates, the fallback builder
returns an itinerary whose transit duration is `max 25 (round (d / 300))`
minutes for the straight-line distance `d`, whose total duration adds the
fixed 8-minute walk-to-stop, 5-minute walk-from-stop and 10-minute headway
components, and whose total distance is `d + 600` metres; it never reads the
stop catalog, and at `d = 0` the transit duration is the 25-minute floor. -/
theorem c7_fallback (calcDist : DistFn) (o d : Location) (stops : List Stop)
    (co cd : ℤ × ℤ) (hco : o.coordinates = some co) (hcd : d.coordinates = some cd) :
    ∃ r : Route, createExampleRoute calcDist o d stops = some r
      ∧ r.segmentos.map Segmento.tempo = [max 25 (jsRoundDiv (calcDist co cd) 300)]
      ∧ r.tempo_total = 8 + max 25 (jsRoundDiv (calcDist co cd) 300) + 5 + 10
      ∧ r.distancia_total = calcDist co cd + 600
      ∧ (∀ otherStops : List Stop,
          createExampleRoute calcDist o d otherStops = createExampleRoute calcDist o d stops)
      ∧ (calcDist co cd = 0 → r.tempo_total = 8 + 25 + 5 + 10) := by
  rw [createExampleRoute, hco, hcd]
  refine ⟨_, rfl, rfl, rfl, rfl, fun otherStops => ?_, fun h0 => ?_⟩
  · rw [createExampleRoute, hco, hcd]
  · show 8 + max 25 (jsRoundDiv (calcDist co cd) 300) + 5 + 10 = 8 + 25 + 5 + 10
    rw [h0]
    decide

/-- C7 witness: the theorem applied to the constant-zero metric and two
endpoints at the same point, exercising the 25-minute clamp. -/
theorem c7_witness :
    (⟨"a", some (0, 0)⟩ : Location).coordinates = some (0, 0)
    ∧ (⟨"b", some (0, 0)⟩ : Location).coordinates = some (0, 0)
    ∧ ∃ r : Route,
        createExampleRoute (fun _ _ => 0) ⟨"a", some (0, 0)⟩ ⟨"b", some (0, 0)⟩ [] = some r
        ∧ r.segmentos.map Segmento.tempo = [max 25 (jsRoundDiv 0 300)]
        ∧ r.tempo_total = 8 + max 25 (jsRoundDiv 0 300) + 5 + 10
        ∧ r.distancia_total = 0 + 600
        ∧ (∀ otherStops : List Stop,
            createExampleRoute (fun _ _ => 0) ⟨"a", some (0, 0)⟩ ⟨"b", some (0, 0)⟩ otherStops
              = createExampleRoute (fun _ _ => 0) ⟨"a", some (0, 0)⟩ ⟨"b", some (0, 0)⟩ [])
        ∧ ((0 : ℤ) = 0 → r.tempo_total = 8 + 25 + 5 + 10) :=
  ⟨rfl, rfl,
    c7_fallback (fun _ _ => 0) ⟨"a", some (0, 0)⟩ ⟨"b", some (0, 0)⟩ [] (0, 0) (0, 0) rfl rfl⟩

/-- C8: for every metric, query point, catalog, distance bound and limit,
`findNearbyStops` succeeds and returns stops annotated with their exact
distance to the point, all within the bound and drawn from the catalog,
sorted ascending by distance, at most `limit` of them; and whenever the
result is not full, every qualifying catalog stop appears in it (so the
empty result for no qualifying stop is a valid outcome, not an error). -/
theorem c8_nearby (calcDist : DistFn) (point : ℤ × ℤ) (stops : List Stop)
    (maxDistance : ℤ) (limit : ℕ) :
    ∃ result, findNearbyStops calcDist (some point) stops maxDistance limit = .ok result
      ∧ (∀ x ∈ result, x.distance = calcDist point x.coordinates
          ∧ x.distance ≤ maxDistance ∧ x.toStop ∈ stops)
      ∧ List.Chain' (fun a b => a.distance ≤ b.distance) result
      ∧ result.length ≤ limit
      ∧ (∀ s ∈ stops, calcDist point s.coordinates ≤ maxDistance → result.length < limit →
          withDistance s (calcDist point s.coordinates) ∈ result) := by
  refine ⟨_, findNearbyStops_some calcDist point stops maxDistance limit, ?_, ?_, ?_, ?_⟩
  · intro x hx
    have hx1 := List.mem_of_mem_take hx
    have hx2 := (mem_insertionSortBy _ _ x).mp hx1
    rcases List.mem_filter.mp hx2 with ⟨hxm, hxd⟩
    rcases List.mem_map.mp hxm with ⟨s, hs, rfl⟩
    exact ⟨rfl, by simpa using hxd, hs⟩
  · exact (((pairwise_insertionSortBy (fun x : NearbyStop => x.distance) _).sublist
      (List.take_sublist _ _)).chain')
  · rw [nearbyStopsList, List.length_take]
    exact min_le_left _ _
  · intro s hs hdist hlen
    rw [nearbyStopsList, List.length_take] at hlen
    have hlt : (insertionSortBy (fun a b => decide (a.distance ≤ b.distance))
        ((stops.map (fun s => withDistance s (calcDist point s.coordinates))).filter
          (fun s => decide (s.distance ≤ maxDistance)))).length < limit := by
      omega
    rw [nearbyStopsList, List.take_of_length_le (le_of_lt hlt)]
    refine (mem_insertionSortBy _ _ _).mpr (List.mem_filter.mpr ⟨?_, by simpa using hdist⟩)
    exact List.mem_map.mpr ⟨s, hs, rfl⟩

/-- C5 counterexample: on `c5ShortWalkCatalog` the direct itinerary's initial
walk is 40 m — at most the 50 m omission threshold — so its walking component
is omitted from the segment while its one-minute duration still enters
`tempo_total`: the route has `tempo_total = 18` but the durations recorded in
its segments sum to 5, and neither overhead constant (12 for a regular origin
stop, 8 for a hub) closes the gap. -/
theorem c5_counterexample :
    ((calculateDirectRoute mdist c5Origin c5Destination c5ShortWalkCatalog).toOption.map
        (fun x => x.map (fun r => (r.tempo_total, recordedDurationSum r))))
      = some (some (18, 5))
    ∧ ((18 : ℤ) ≠ 5 + 12) ∧ ((18 : ℤ) ≠ 5 + 8) := by decide

/-- C5 amended: every itinerary produced by any of the three builders — each
quantified independently, on any input where that builder produces one —
satisfies: `tempo_total` equals the sum of the segments' transit durations
plus the builder's initial and final walk durations plus the builder's fixed
overheads (8 or 12 minutes headway for the direct builder; 15 minutes
transfer dwell plus 12 minutes headway for the transfer builder; 8 + 5
walking plus 10 headway for the fallback), and `distancia_total` equals the
sum over segments of the stop-to-stop metric distance plus the two walk
distances — where each walk is recorded as a segment component only when its
distance exceeds 50 m, so the totals may exceed what the recorded components
alone sum to. -/
theorem c5_amended (calcDist : DistFn) (o d : Location) (stops : List Stop) :
    (∀ r1 : Route, calculateDirectRoute calcDist o d stops = .ok (some r1) →
      ∃ walkTo walkFrom wait : ℤ,
        r1.tempo_total = segTempoSum r1
          + calculateWalkingTime walkTo + calculateWalkingTime walkFrom + wait
        ∧ r1.distancia_total = segTransitDistSum calcDist r1 + walkTo + walkFrom
        ∧ (r1.segmentos.head?.bind Segmento.caminhadaInicial
            = if 50 < walkTo then some ⟨walkTo, calculateWalkingTime walkTo⟩ else none)
        ∧ (r1.segmentos.getLast?.bind Segmento.caminhadaFinal
            = if 50 < walkFrom then some ⟨walkFrom, calculateWalkingTime walkFrom⟩ else none)
        ∧ (wait = 8 ∨ wait = 12))
    ∧ (∀ r2 : Route, calculateRouteWithTransfer calcDist o d stops = .ok (some r2) →
      ∃ walkTo walkFrom : ℤ,
        r2.tempo_total = segTempoSum r2
          + calculateWalkingTime walkTo + calculateWalkingTime walkFrom + (15 + 12)
        ∧ r2.distancia_total = segTransitDistSum calcDist r2 + walkTo + walkFrom
        ∧ (r2.segmentos.head?.bind Segmento.caminhadaInicial
            = if 50 < walkTo then some ⟨walkTo, calculateWalkingTime walkTo⟩ else none)
        ∧ (r2.segmentos.getLast?.bind Segmento.caminhadaFinal
            = if 50 < walkFrom then some ⟨walkFrom, calculateWalkingTime walkFrom⟩ else none))
    ∧ (∀ r3 : Route, createExampleRoute calcDist o d stops = some r3 →
      r3.tempo_total = segTempoSum r3 + 8 + 5 + 10
        ∧ r3.distancia_total = segTransitDistSum calcDist r3 + 400 + 200
        ∧ r3.segmentos.head?.bind Segmento.caminhadaInicial = some ⟨400, 8⟩
        ∧ r3.segmentos.getLast?.bind Segmento.caminhadaFinal = some ⟨200, 5⟩) := by
  refine ⟨?_, ?_, ?_⟩
  · intro r1 h1
    rcases coords_of_directRoute calcDist o d stops r1 h1 with ⟨co, cd, hco, hcd⟩
    have hdr : calculateDirectRoute calcDist o d stops
        = .ok (directSearch calcDist o d (nearbyStopsList calcDist co stops 3000 10)
            (nearbyStopsList calcDist cd stops 3000 10)) := by
      rw [calculateDirectRoute, hco, hcd, findNearbyStops_some, findNearbyStops_some]
    have hds : directSearch calcDist o d (nearbyStopsList calcDist co stops 3000 10)
        (nearbyStopsList calcDist cd stops 3000 10) = some r1 :=
      Except.ok.inj (hdr.symm.trans h1)
    rcases exists_of_findSome? hds with ⟨s1, _, hinner⟩
    rcases exists_of_findSome? hinner with ⟨s2, _, hif⟩
    rw [if_pos (List.length_pos.mpr (findConnectingLines_ne_nil s1.lines s2.lines))] at hif
    have hb := Option.some.inj hif
    subst hb
    refine ⟨s1.distance, s2.distance, if s1.type = "main" then (8 : ℤ) else 12,
      ?_, ?_, ?_, ?_, ?_⟩
    · simp [buildDirectRoute, segTempoSum]; ring
    · simp [buildDirectRoute, segTransitDistSum, NearbyStop.toSegStop]; ring
    · simp [buildDirectRoute, calculateWalkingTime]
    · simp [buildDirectRoute, calculateWalkingTime]
    · by_cases hstype : s1.type = "main"
      · exact Or.inl (if_pos hstype)
      · exact Or.inr (if_neg hstype)
  · intro r2 h2
    rcases coords_of_transferRoute calcDist o d stops r2 h2 with ⟨co, cd, hco, hcd⟩
    have htr : calculateRouteWithTransfer calcDist o d stops
        = .ok (transferSearch calcDist o d (nearbyStopsList calcDist co stops 3000 10)
            (nearbyStopsList calcDist cd stops 3000 10) (terminalStops stops)) := by
      rw [calculateRouteWithTransfer, hco, hcd, findNearbyStops_some, findNearbyStops_some]
    have hts : transferSearch calcDist o d (nearbyStopsList calcDist co stops 3000 10)
        (nearbyStopsList calcDist cd stops 3000 10) (terminalStops stops) = some r2 :=
      Except.ok.inj (htr.symm.trans h2)
    rcases exists_of_findSome? hts with ⟨s1, _, hinner⟩
    rcases exists_of_findSome? hinner with ⟨s2, _, hinner2⟩
    rcases exists_of_findSome? hinner2 with ⟨t, _, hif⟩
    rw [if_pos ⟨List.length_pos.mpr (findConnectingLines_ne_nil s1.lines t.lines),
      List.length_pos.mpr (findConnectingLines_ne_nil t.lines s2.lines)⟩] at hif
    have hb := Option.some.inj hif
    subst hb
    refine ⟨s1.distance, s2.distance, ?_, ?_, ?_, ?_⟩
    · simp [buildTransferRoute, segTempoSum]; ring
    · simp [buildTransferRoute, segTransitDistSum, NearbyStop.toSegStop, Stop.toSegStop]; ring
    · simp [buildTransferRoute, calculateWalkingTime]
    · simp [buildTransferRoute, calculateWalkingTime]
  · intro r3 h3
    rcases coords_of_exampleRoute calcDist o d stops r3 h3 with ⟨co, cd, hco, hcd⟩
    rw [createExampleRoute, hco, hcd] at h3
    have hb := Option.some.inj h3
    subst hb
    refine ⟨?_, ?_, rfl, rfl⟩
    · simp [segTempoSum]; ring
    · simp [segTransitDistSum]; ring

/-- C5 witness: the amended statement applied to `c5Catalog` — on which all
three builders happen to produce an itinerary — instantiating each of the
three independent conjuncts at the route its builder returns there. -/
theorem c5_witness :
    calculateDirectRoute mdist c5Origin c5Destination c5Catalog = .ok (some c5DirectRoute)
    ∧ calculateRouteWithTransfer mdist c5Origin c5Destination c5Catalog
        = .ok (some c5TransferRoute)
    ∧ createExampleRoute mdist c5Origin c5Destination c5Catalog = some c5ExampleRoute
    ∧ (∃ walkTo walkFrom wait : ℤ,
        c5DirectRoute.tempo_total = segTempoSum c5DirectRoute
          + calculateWalkingTime walkTo + calculateWalkingTime walkFrom + wait
        ∧ c5DirectRoute.distancia_total = segTransitDistSum mdist c5DirectRoute + walkTo + walkFrom
        ∧ (c5DirectRoute.segmentos.head?.bind Segmento.caminhadaInicial
            = if 50 < walkTo then some ⟨walkTo, calculateWalkingTime walkTo⟩ else none)
        ∧ (c5DirectRoute.segmentos.getLast?.bind Segmento.caminhadaFinal
            = if 50 < walkFrom then some ⟨walkFrom, calculateWalkingTime walkFrom⟩ else none)
        ∧ (wait = 8 ∨ wait = 12))
    ∧ (∃ walkTo walkFrom : ℤ,
        c5TransferRoute.tempo_total = segTempoSum c5TransferRoute
          + calculateWalkingTime walkTo + calculateWalkingTime walkFrom + (15 + 12)
        ∧ c5TransferRoute.distancia_total
            = segTransitDistSum mdist c5TransferRoute + walkTo + walkFrom
        ∧ (c5TransferRoute.segmentos.head?.bind Segmento.caminhadaInicial
            = if 50 < walkTo then some ⟨walkTo, calculateWalkingTime walkTo⟩ else none)
        ∧ (c5TransferRoute.segmentos.getLast?.bind Segmento.caminhadaFinal
            = if 50 < walkFrom then some ⟨walkFrom, calculateWalkingTime walkFrom⟩ else none))
    ∧ (c5ExampleRoute.tempo_total = segTempoSum c5ExampleRoute + 8 + 5 + 10
        ∧ c5ExampleRoute.distancia_total = segTransitDistSum mdist c5ExampleRoute + 400 + 200
        ∧ c5ExampleRoute.segmentos.head?.bind Segmento.caminhadaInicial = some ⟨400, 8⟩
        ∧ c5ExampleRoute.segmentos.getLast?.bind Segmento.caminhadaFinal = some ⟨200, 5⟩) :=
  ⟨by decide, by decide, by decide,
    (c5_amended mdist c5Origin c5Destination c5Catalog).1 c5DirectRoute (by decide),
    (c5_amended mdist c5Origin c5Destination c5Catalog).2.1 c5TransferRoute (by decide),
    (c5_amended mdist c5Origin c5Destination c5Catalog).2.2 c5ExampleRoute (by decide)⟩
